import Mathlib

/-!
Verification development for the Qwen API inference backend
(`sparrow_parse/vllm/qwen_api_inference.py`).

The Python source is shallowly embedded: strings are `List Char`, bytes
are `List Nat` (values 0–255), external effects (filesystem, image codec,
HTTP transport) are explicit oracles in an `Env` record, and Python
exceptions that escape the method are `Except.error` values.
-/

namespace Sparrow

/-! ### Characters and Python string helpers -/

/-- The double-quote character. -/
def quoteChar : Char := Char.ofNat 34

/-- The single-quote (apostrophe) character. -/
def aposChar : Char := Char.ofNat 39

/-- The backslash character. -/
def backslashChar : Char := Char.ofNat 92

/-- The opening curly brace character. -/
def lbraceChar : Char := Char.ofNat 123

/-- The closing curly brace character. -/
def rbraceChar : Char := Char.ofNat 125

/-- Whitespace stripped by Python's `str.strip()` (ASCII portion). -/
def pyWsChars : List Char := [' ', '\t', '\n', '\r', Char.ofNat 11, Char.ofNat 12]

/-- The character set of Python's `str.strip("[]'")`. -/
def stripSetChars : List Char := ['[', ']', aposChar]

/-- Python `str.strip(chars)`: remove characters of the set from both ends. -/
def pyStrip (chars : List Char) (s : List Char) : List Char :=
  ((s.dropWhile (fun c => c ∈ chars)).reverse.dropWhile (fun c => c ∈ chars)).reverse

/-- Python `str.strip()` (no argument): strip whitespace from both ends. -/
def stripPyWs (s : List Char) : List Char := pyStrip pyWsChars s

/-- Python `str.replace("'", '"')`: global single-to-double quote substitution. -/
def replaceQuotes (s : List Char) : List Char :=
  s.map (fun c => if c = aposChar then quoteChar else c)

/-- Python `str.find(sub)`: index of the first occurrence of `sub`, `none`
for Python's `-1`. -/
def findSub (sub : List Char) : List Char → Option Nat
  | [] => if sub.isEmpty then some 0 else none
  | c :: rest =>
    if sub.isPrefixOf (c :: rest) then some 0 else (findSub sub rest).map (· + 1)

/-- The opening fence tag `"```json"` looked for by `process_response`. -/
def fenceJsonTag : List Char := "```json".data

/-- The closing fence tag `"```"`. -/
def fence3Tag : List Char := "```".data

/-! ### JSON values

Model of the Python `json` standard-library capability used by the source
(`json.loads` / `json.dumps(..., indent=2)`).  Numbers keep their source
lexeme (Python would convert to `int`/`float`; every lexeme round-trips
textually for the integer and plain-decimal cases the program meets).
Non-standard `NaN`/`Infinity` literals and astral-plane surrogate-pair
recombination are not modelled; no claim exercises them. -/

inductive JVal where
  | jnull
  | jbool (b : Bool)
  | jnum (lexeme : List Char)
  | jstr (s : List Char)
  | jarr (elems : List JVal)
  | jobj (fields : List (List Char × JVal))

/-- Whitespace skipped by the JSON grammar. -/
def skipJWs (s : List Char) : List Char :=
  s.dropWhile (fun c => c = ' ' ∨ c = '\t' ∨ c = '\n' ∨ c = '\r')

/-- Hexadecimal digit value of a character. -/
def hexVal (c : Char) : Option Nat :=
  if '0' ≤ c ∧ c ≤ '9' then some (c.toNat - 48)
  else if 'a' ≤ c ∧ c ≤ 'f' then some (c.toNat - 87)
  else if 'A' ≤ c ∧ c ≤ 'F' then some (c.toNat - 55)
  else none

/-- Parse the body of a JSON string (opening quote already consumed).
Returns the decoded content and the remaining input after the closing
quote.  Fuelled; the callers pass ample fuel. -/
def parseJStr : Nat → List Char → Option (List Char × List Char)
  | 0, _ => none
  | _ + 1, [] => none
  | fuel + 1, c :: rest =>
    if c = quoteChar then some ([], rest)
    else if c = backslashChar then
      match rest with
      | [] => none
      | e :: rest2 =>
        if e = quoteChar ∨ e = backslashChar ∨ e = '/' then
          (parseJStr fuel rest2).map (fun p => (e :: p.1, p.2))
        else if e = 'b' then
          (parseJStr fuel rest2).map (fun p => (Char.ofNat 8 :: p.1, p.2))
        else if e = 'f' then
          (parseJStr fuel rest2).map (fun p => (Char.ofNat 12 :: p.1, p.2))
        else if e = 'n' then
          (parseJStr fuel rest2).map (fun p => ('\n' :: p.1, p.2))
        else if e = 'r' then
          (parseJStr fuel rest2).map (fun p => ('\r' :: p.1, p.2))
        else if e = 't' then
          (parseJStr fuel rest2).map (fun p => ('\t' :: p.1, p.2))
        else if e = 'u' then
          match rest2 with
          | h1 :: h2 :: h3 :: h4 :: rest3 =>
            match hexVal h1, hexVal h2, hexVal h3, hexVal h4 with
            | some a, some b, some c2, some d =>
              (parseJStr fuel rest3).map
                (fun p => (Char.ofNat (4096 * a + 256 * b + 16 * c2 + d) :: p.1, p.2))
            | _, _, _, _ => none
          | _ => none
        else none
    else if c.toNat < 32 then none
    else (parseJStr fuel rest).map (fun p => (c :: p.1, p.2))

/-- One or more decimal digits. -/
def parseDigits1 (s : List Char) : Option (List Char × List Char) :=
  let d := s.takeWhile Char.isDigit
  if d.isEmpty then none else some (d, s.dropWhile Char.isDigit)

/-- Integer part of a JSON number: `0` or a nonzero digit followed by digits. -/
def parseIntPart (s : List Char) : Option (List Char × List Char) :=
  match s with
  | c :: t =>
    if c = '0' then some ([c], t)
    else if c.isDigit then some (c :: t.takeWhile Char.isDigit, t.dropWhile Char.isDigit)
    else none
  | [] => none

/-- Optional fractional part `.digits` of a JSON number. -/
def parseFracOpt (s : List Char) : Option (List Char × List Char) :=
  match s with
  | c :: t =>
    if c = '.' then (parseDigits1 t).map (fun p => (c :: p.1, p.2)) else some ([], s)
  | [] => some ([], [])

/-- Optional exponent part of a JSON number. -/
def parseExpOpt (s : List Char) : Option (List Char × List Char) :=
  match s with
  | c :: t =>
    if c = 'e' ∨ c = 'E' then
      match t with
      | d :: t2 =>
        if d = '+' ∨ d = '-' then (parseDigits1 t2).map (fun p => (c :: d :: p.1, p.2))
        else (parseDigits1 t).map (fun p => (c :: p.1, p.2))
      | [] => none
    else some ([], s)
  | [] => some ([], [])

/-- Lexeme of a JSON number per the JSON grammar. -/
def parseNumLex (s : List Char) : Option (List Char × List Char) :=
  let sign : List Char × List Char :=
    match s with
    | c :: t => if c = '-' then ([c], t) else ([], s)
    | [] => ([], [])
  match parseIntPart sign.2 with
  | none => none
  | some (ip, r1) =>
    match parseFracOpt r1 with
    | none => none
    | some (fp, r2) =>
      match parseExpOpt r2 with
      | none => none
      | some (ep, r3) => some (sign.1 ++ ip ++ fp ++ ep, r3)

/-- Insert a key into an object under Python `dict` semantics: a duplicate
key overwrites the value but keeps the first insertion position. -/
def insertField (fields : List (List Char × JVal)) (k : List Char) (v : JVal) :
    List (List Char × JVal) :=
  match fields with
  | [] => [(k, v)]
  | (k2, v2) :: rest => if k2 = k then (k, v) :: rest else (k2, v2) :: insertField rest k v

mutual

/-- Parse one JSON value; returns the value and the remaining input. -/
def parseJ : Nat → List Char → Option (JVal × List Char)
  | 0, _ => none
  | fuel + 1, s =>
    match skipJWs s with
    | [] => none
    | c :: rest =>
      if c = quoteChar then
        (parseJStr (rest.length + 1) rest).map (fun p => (JVal.jstr p.1, p.2))
      else if c = lbraceChar then parseMembers fuel rest
      else if c = '[' then parseElems fuel rest
      else if c = 't' then
        if "rue".data.isPrefixOf rest then some (JVal.jbool true, rest.drop 3) else none
      else if c = 'f' then
        if "alse".data.isPrefixOf rest then some (JVal.jbool false, rest.drop 4) else none
      else if c = 'n' then
        if "ull".data.isPrefixOf rest then some (JVal.jnull, rest.drop 3) else none
      else
        match parseNumLex (c :: rest) with
        | some (lex, r) => some (JVal.jnum lex, r)
        | none => none

/-- Parse array elements (opening bracket already consumed). -/
def parseElems : Nat → List Char → Option (JVal × List Char)
  | 0, _ => none
  | fuel + 1, s =>
    match skipJWs s with
    | [] => none
    | c :: r =>
      if c = ']' then some (JVal.jarr [], r)
      else
        match parseJ fuel s with
        | some (v, r1) => parseElemsTail fuel [v] r1
        | none => none

/-- Parse the rest of an array after at least one element. -/
def parseElemsTail : Nat → List JVal → List Char → Option (JVal × List Char)
  | 0, _, _ => none
  | fuel + 1, acc, s =>
    match skipJWs s with
    | [] => none
    | c :: r =>
      if c = ',' then
        match parseJ fuel r with
        | some (v, r1) => parseElemsTail fuel (acc ++ [v]) r1
        | none => none
      else if c = ']' then some (JVal.jarr acc, r)
      else none

/-- Parse object members (opening brace already consumed). -/
def parseMembers : Nat → List Char → Option (JVal × List Char)
  | 0, _ => none
  | fuel + 1, s =>
    match skipJWs s with
    | [] => none
    | c :: r =>
      if c = rbraceChar then some (JVal.jobj [], r)
      else if c = quoteChar then
        match parseJStr (r.length + 1) r with
        | some (k, r1) =>
          match skipJWs r1 with
          | d :: r2 =>
            if d = ':' then
              match parseJ fuel r2 with
              | some (v, r3) => parseMembersTail fuel [(k, v)] r3
              | none => none
            else none
          | [] => none
        | none => none
      else none

/-- Parse the rest of an object after at least one member. -/
def parseMembersTail : Nat → List (List Char × JVal) → List Char →
    Option (JVal × List Char)
  | 0, _, _ => none
  | fuel + 1, acc, s =>
    match skipJWs s with
    | [] => none
    | c :: r =>
      if c = ',' then
        match skipJWs r with
        | d :: r1 =>
          if d = quoteChar then
            match parseJStr (r1.length + 1) r1 with
            | some (k, r2) =>
              match skipJWs r2 with
              | e :: r3 =>
                if e = ':' then
                  match parseJ fuel r3 with
                  | some (v, r4) => parseMembersTail fuel (insertField acc k v) r4
                  | none => none
                else none
              | [] => none
            | none => none
          else none
        | [] => none
      else if c = rbraceChar then some (JVal.jobj acc, r)
      else none

end

/-- `json.loads`: parse a complete JSON document, requiring full consumption
of the input (up to trailing whitespace); `none` models `JSONDecodeError`. -/
def jsonLoads (s : List Char) : Option JVal :=
  match parseJ (s.length + 1) s with
  | some (v, rest) => if (skipJWs rest).isEmpty then some v else none
  | none => none

/-- Lowercase hexadecimal digit. -/
def hexDigitChar (n : Nat) : Char :=
  if n < 10 then Char.ofNat (48 + n) else Char.ofNat (87 + n)

/-- Four lowercase hex digits of a value below 65536. -/
def toHex4 (n : Nat) : List Char :=
  [hexDigitChar (n / 4096 % 16), hexDigitChar (n / 256 % 16),
   hexDigitChar (n / 16 % 16), hexDigitChar (n % 16)]

/-- `json.dumps` escaping of one character (default `ensure_ascii=True`). -/
def escapeJChar (c : Char) : List Char :=
  if c = quoteChar then [backslashChar, quoteChar]
  else if c = backslashChar then [backslashChar, backslashChar]
  else if c = '\n' then [backslashChar, 'n']
  else if c = '\t' then [backslashChar, 't']
  else if c = '\r' then [backslashChar, 'r']
  else if c = Char.ofNat 8 then [backslashChar, 'b']
  else if c = Char.ofNat 12 then [backslashChar, 'f']
  else if c.toNat < 32 then backslashChar :: 'u' :: toHex4 c.toNat
  else if c.toNat < 127 then [c]
  else if c.toNat < 65536 then backslashChar :: 'u' :: toHex4 c.toNat
  else
    (backslashChar :: 'u' :: toHex4 (55296 + (c.toNat - 65536) / 1024)) ++
      (backslashChar :: 'u' :: toHex4 (56320 + (c.toNat - 65536) % 1024))

/-- Serialize a JSON string with quotes and escapes. -/
def dumpJStr (s : List Char) : List Char :=
  quoteChar :: ((s.flatMap escapeJChar) ++ [quoteChar])

/-- Indentation of `2 * lvl` spaces used by `json.dumps(..., indent=2)`. -/
def indentChars (lvl : Nat) : List Char := List.replicate (2 * lvl) ' '

mutual

/-- `json.dumps(v, indent=2)` rendering at a nesting level. -/
def dumpJ : Nat → JVal → List Char
  | _, JVal.jnull => "null".data
  | _, JVal.jbool b => if b then "true".data else "false".data
  | _, JVal.jnum lex => lex
  | _, JVal.jstr s => dumpJStr s
  | _, JVal.jarr [] => "[]".data
  | lvl, JVal.jarr (x :: xs) =>
    '[' :: '\n' :: (dumpJItems (lvl + 1) (x :: xs) ++
      ('\n' :: (indentChars lvl ++ [']'])))
  | _, JVal.jobj [] => [lbraceChar, rbraceChar]
  | lvl, JVal.jobj (f :: fs) =>
    lbraceChar :: '\n' :: (dumpJFields (lvl + 1) (f :: fs) ++
      ('\n' :: (indentChars lvl ++ [rbraceChar])))

/-- Array items, each indented, joined by `",\n"`. -/
def dumpJItems : Nat → List JVal → List Char
  | _, [] => []
  | lvl, [x] => indentChars lvl ++ dumpJ lvl x
  | lvl, x :: y :: xs =>
    indentChars lvl ++ (dumpJ lvl x ++ (',' :: '\n' :: dumpJItems lvl (y :: xs)))

/-- Object members `"key": value`, each indented, joined by `",\n"`. -/
def dumpJFields : Nat → List (List Char × JVal) → List Char
  | _, [] => []
  | lvl, [(k, v)] =>
    indentChars lvl ++ (dumpJStr k ++ (':' :: ' ' :: dumpJ lvl v))
  | lvl, (k, v) :: f :: fs =>
    indentChars lvl ++ (dumpJStr k ++ (':' :: ' ' ::
      (dumpJ lvl v ++ (',' :: '\n' :: dumpJFields lvl (f :: fs)))))

end

/-- `json.dumps(v, indent=2)` at the top level. -/
def jsonDumps2 (v : JVal) : List Char := dumpJ 0 v

/-! ### `QwenAPIInference.process_response` (lines 38–62)

The Python method first (possibly) narrows `output_text` to a fenced slice,
then strips `"[]'"`, replaces single with double quotes, parses and
re-serializes; on `JSONDecodeError` it returns the current value of
`output_text`, i.e. the possibly fence-narrowed text. -/

/-- Lines 46–51: the fence-narrowing step.  `json_start = find("```json") + 7`;
if a closing ``` ``` `` is found after it, `output_text` is reassigned to the
stripped slice between the fences; otherwise `output_text` is left unchanged. -/
def fence_slice (s : List Char) : List Char :=
  match findSub fenceJsonTag s with
  | none => s
  | some i =>
    match findSub fence3Tag (s.drop (i + 7)) with
    | some j => stripPyWs ((s.drop (i + 7)).take j)
    | none => s

/-- Lines 53–62: strip `"[]'"`, replace quotes, `json.loads`, and on success
`json.dumps(..., indent=2)`; on failure return the input text unchanged. -/
def clean_and_parse (t : List Char) : List Char :=
  match jsonLoads (replaceQuotes (pyStrip stripSetChars t)) with
  | some v => jsonDumps2 v
  | none => t

/-- `process_response` (lines 38–62): fence narrowing followed by
cleanup-and-parse, with the parse-failure fallback returning the
fence-narrowed text. -/
def process_response (s : List Char) : List Char :=
  clean_and_parse (fence_slice s)

/-- `process_response` on `String`. -/
def process_response_str (s : String) : String :=
  String.mk (process_response s.data)

/-- Modelled from the spec's words, for refinement comparison only (spec
§4.2 step 1 / claim C5): when no closing fence is found, the slice from the
start of the fenced content to the end of the string is used. -/
def fence_slice_spec (s : List Char) : List Char :=
  match findSub fenceJsonTag s with
  | none => s
  | some i =>
    match findSub fence3Tag (s.drop (i + 7)) with
    | some j => stripPyWs ((s.drop (i + 7)).take j)
    | none => s.drop (i + 7)

/-! ### `QwenAPIInference.load_image_data` (lines 64–84)

Only the dimension computation is modelled; the pixel data never influences
anything observable.  Python's `int()` on a positive float is floor, and the
two float expressions `max_height * aspect_ratio` and
`max_width / aspect_ratio` are modelled exactly as the rational values
`mh*w/h` and `mw*h/w`, whose floors are the Nat divisions below. -/

/-- Dimension part of `load_image_data`: if either dimension exceeds its
bound, compute `min(max_width, int(max_height * aspect_ratio))` and
`min(max_height, int(max_width / aspect_ratio))`; else return unchanged. -/
def resizeDims (w h mw mh : Nat) : Nat × Nat :=
  if mw < w ∨ mh < h then (min mw (mh * w / h), min mh (mw * h / w))
  else (w, h)

/-! ### `QwenAPIInference.image_to_data_url` (lines 27–36) and base64 -/

/-- The base64 alphabet (RFC 4648), as used by Python's `base64.b64encode`. -/
def base64Alphabet : List Char :=
  "ABCDEFGHIJKLMNOPQRSTUVWXYZabcdefghijklmnopqrstuvwxyz0123456789+/".data

/-- The base64 digit for a 6-bit value. -/
def b64Char (n : Nat) : Char := base64Alphabet.getD n 'A'

/-- `base64.b64encode` over bytes (each reduced mod 256), with `=` padding. -/
def base64Encode : List Nat → List Char
  | a :: b :: c :: rest =>
    let a2 := a % 256
    let b2 := b % 256
    let c2 := c % 256
    b64Char (a2 / 4) :: b64Char ((a2 % 4) * 16 + b2 / 16) ::
      b64Char ((b2 % 16) * 4 + c2 / 64) :: b64Char (c2 % 64) :: base64Encode rest
  | [a, b] =>
    let a2 := a % 256
    let b2 := b % 256
    [b64Char (a2 / 4), b64Char ((a2 % 4) * 16 + b2 / 16), b64Char ((b2 % 16) * 4), '=']
  | [a] =>
    let a2 := a % 256
    [b64Char (a2 / 4), b64Char ((a2 % 4) * 16), '=', '=']
  | [] => []

/-- `base64.b64encode(...).decode("utf-8")` as a `String`. -/
def base64String (bs : List Nat) : String := String.mk (base64Encode bs)

/-- The MIME prefix of the produced data URL (line 36). -/
def data_url_head : String := "data:image/jpeg;base64,"

/-! ### Data model and environment of `QwenAPIInference.inference` -/

/-- One element of `input_data`: a Python dict whose `"file_path"` key may
be absent (`none`) and whose `"text_input"` key may be absent (`none`). -/
structure Item where
  file_path : Option (List String)
  text_input : Option String

/-- The variable content of the chat-completion request built in lines
109–127: fixed model identifier, fixed system message, the user text taken
from `input_data[0]["text_input"]`, and the image data URL. -/
structure ChatPayload where
  model : String
  system_text : String
  user_text : String
  image_url : String

/-- Outcome of `requests.post` + `raise_for_status` + `response.json()`:
either an exception of class `requests.exceptions.RequestException`
(transport failure, non-2xx status, or an undecodable body) carrying
`str(e)`, or a 2xx response with a JSON-decoded body. -/
inductive NetResult where
  | request_error (msg : String)
  | success (body : JVal)

/-- External world of one `inference` call: `os.path.abspath`, the image
codec (`Image.open(...).size`, `none` when the file is missing or not a
decodable image), raw file reads (`open(path,"rb").read()`, `none` when
unreadable), and the HTTP transport keyed by the request content. -/
structure Env where
  abspath : String → String
  image_dims : String → Option (Nat × Nat)
  file_bytes : String → Option (List Nat)
  net : ChatPayload → NetResult

/-- Python exceptions that escape `inference` (nothing in the method
catches them). -/
inductive PyError where
  | image_load_error (path : String)
  | batch_item_error
  | response_shape_error

/-- One element of the returned `results` list: either the processed
response string, or the dict `{"error": msg}` appended in the `except`
branch. -/
inductive QwenResult where
  | text (s : String)
  | error_obj (msg : String)

/-- The fixed model identifier of the request payload (line 125). -/
def model_id : String := "qwen/qwen2.5-vl-72b-instruct:free"

/-- The fixed system message (line 112). -/
def system_prompt : String :=
  "You are an expert at extracting structured text from image documents. Please provide the extracted information in JSON format."

/-- Modelled from the spec: the "single fixed canned structured result"
returned in static mode.  `get_simple_json` is defined in
`inference_base.py`, which is not under `src/`; its concrete value is
irrelevant to every claim. -/
def get_simple_json : QwenResult := QwenResult.text "\x7b\x7d"

/-- `QwenAPIInference._extract_file_paths` (lines 154–166): flatten
`data.get("file_path", [])` across all items, resolving each path with
`os.path.abspath`. -/
def extract_file_paths (env : Env) (input_data : List Item) : List String :=
  (input_data.map (fun d => (d.file_path.getD []).map env.abspath)).flatten

/-- Python dict key lookup on a decoded JSON object. -/
def jlookup : List (List Char × JVal) → List Char → Option JVal
  | [], _ => none
  | (k, v) :: rest, key => if k = key then some v else jlookup rest key

/-- `json.loads` result field access `body["choices"][0]["message"]["content"]`
(line 141): `none` models the uncaught `KeyError`/`IndexError`/`TypeError`
raised when the path is absent or malformed. -/
def extract_content (v : JVal) : Option String :=
  match v with
  | JVal.jobj fs =>
    match jlookup fs "choices".data with
    | some (JVal.jarr (c :: _)) =>
      match c with
      | JVal.jobj cf =>
        match jlookup cf "message".data with
        | some (JVal.jobj mf) =>
          match jlookup mf "content".data with
          | some (JVal.jstr s) => some (String.mk s)
          | _ => none
        | _ => none
      | _ => none
    | _ => none
  | _ => none

/-- `image_to_data_url` (lines 27–36): read the file's raw bytes and tag the
base64 encoding with the MIME prefix; `none` models the uncaught read
failure. -/
def image_to_data_url (env : Env) (path : String) : Option String :=
  (env.file_bytes path).map (fun bs => data_url_head ++ base64String bs)

/-- Body of the `for file_path in file_paths` loop (lines 101–150) for one
worklist path.  In source order: `load_image_data` (the resize result is
computed and discarded — only the original `file_path` is used afterwards),
`image_to_data_url`, the message construction reading
`input_data[0]["text_input"]`, and the guarded network call.  Only
`requests.exceptions.RequestException` is caught (line 147); every other
exception escapes as `Except.error`. -/
def process_item (env : Env) (input_data : List Item) (path : String) :
    Except PyError QwenResult :=
  match env.image_dims path with
  | none => Except.error (PyError.image_load_error path)
  | some wh =>
    let _resized := resizeDims wh.1 wh.2 1250 1750
    match image_to_data_url env path with
    | none => Except.error (PyError.image_load_error path)
    | some url =>
      match input_data.head? with
      | none => Except.error PyError.batch_item_error
      | some item0 =>
        match item0.text_input with
        | none => Except.error PyError.batch_item_error
        | some txt =>
          match env.net { model := model_id, system_text := system_prompt,
                          user_text := txt, image_url := url } with
          | NetResult.request_error msg =>
            Except.ok (QwenResult.error_obj ("Qwen API error for " ++ path ++ ": " ++ msg))
          | NetResult.success body =>
            match extract_content body with
            | none => Except.error PyError.response_shape_error
            | some output_text =>
              Except.ok (QwenResult.text (process_response_str output_text))

/-- The sequential loop of `inference` accumulating `results` in worklist
order; the first uncaught exception aborts the whole call. -/
def run_worklist (env : Env) (input_data : List Item) :
    List String → Except PyError (List QwenResult)
  | [] => Except.ok []
  | p :: ps =>
    match process_item env input_data p with
    | Except.error e => Except.error e
    | Except.ok r =>
      match run_worklist env input_data ps with
      | Except.error e => Except.error e
      | Except.ok rs => Except.ok (r :: rs)

/-- `QwenAPIInference.inference` (lines 86–152): static mode returns the
canned fixture; otherwise the flattened worklist is processed in order. -/
def inference (env : Env) (input_data : List Item) (mode : Option String) :
    Except PyError (List QwenResult) :=
  if mode = some "static" then Except.ok [get_simple_json]
  else run_worklist env input_data (extract_file_paths env input_data)

/-! ### Concrete environments and batches used by witnesses and
counterexamples -/

/-- A world where no path resolves to a readable or decodable image. -/
def env_noload : Env :=
  { abspath := id
    image_dims := fun _ => none
    file_bytes := fun _ => none
    net := fun _ => NetResult.request_error "connection refused" }

/-- A one-item batch naming a nonexistent image file. -/
def batch_missing : List Item :=
  [{ file_path := some ["/no/such/file.png"], text_input := some "extract" }]

/-- A second one-item batch with a missing file, for the amended theorem's
witness. -/
def batch_missing2 : List Item :=
  [{ file_path := some ["/missing.png"], text_input := none }]

/-- A world where images load but the remote returns a 2xx body without the
`choices` field. -/
def env_badbody : Env :=
  { abspath := id
    image_dims := fun _ => some (100, 100)
    file_bytes := fun _ => some [0, 1]
    net := fun _ => NetResult.success (JVal.jobj []) }

/-- A one-item, one-path batch. -/
def batch_one : List Item :=
  [{ file_path := some ["doc.png"], text_input := some "extract" }]

/-- A second one-item, one-path batch. -/
def batch_one2 : List Item :=
  [{ file_path := some ["other.png"], text_input := some "summarize" }]

/-- A well-shaped success body whose content text is `"{}"`. -/
def body_ok : JVal :=
  JVal.jobj
    [("choices".data,
      JVal.jarr
        [JVal.jobj
          [("message".data, JVal.jobj [("content".data, JVal.jstr "\x7b\x7d".data)])]])]

/-- A world where every step succeeds. -/
def env_ok : Env :=
  { abspath := id
    image_dims := fun _ => some (3000, 1000)
    file_bytes := fun _ => some [255, 0, 16]
    net := fun _ => NetResult.success body_ok }

/-- A one-item batch carrying two file paths. -/
def batch_two : List Item :=
  [{ file_path := some ["a.png", "b.png"], text_input := some "extract" }]

/-- A world with fixed known file bytes, for the payload claim's witness. -/
def env_bytes : Env :=
  { abspath := id
    image_dims := fun _ => some (2000, 3000)
    file_bytes := fun _ => some [77, 78]
    net := fun _ => NetResult.success body_ok }

/-- A transport function that agrees with `env_bytes.net` (everywhere, hence
in particular on the payload actually sent). -/
def net_alt : ChatPayload → NetResult := fun _ => NetResult.success body_ok

/-- `env_bytes` with different image dimensions reported by the codec. -/
def env_dims_alt : Env := { env_bytes with image_dims := fun _ => some (5, 6) }

/-! ### Helper lemmas -/

/-- The loop over a concatenated worklist is the concatenation of the loops,
with the first uncaught exception winning. -/
theorem run_worklist_append (env : Env) (input : List Item) (l1 l2 : List String) :
    run_worklist env input (l1 ++ l2) =
      match run_worklist env input l1 with
      | Except.error e => Except.error e
      | Except.ok rs1 =>
        match run_worklist env input l2 with
        | Except.error e => Except.error e
        | Except.ok rs2 => Except.ok (rs1 ++ rs2) := by
  induction l1 with
  | nil =>
    simp only [List.nil_append, run_worklist]
    cases run_worklist env input l2 <;> rfl
  | cons p ps ih =>
    simp only [List.cons_append, run_worklist, List.append_eq, ih]
    cases process_item env input p with
    | error e => rfl
    | ok r =>
      cases run_worklist env input ps with
      | error e => rfl
      | ok rs1 =>
        cases run_worklist env input l2 with
        | error e => rfl
        | ok rs2 => rfl

/-- A successful loop pass pairs every worklist path with its item result. -/
theorem run_worklist_ok_align (env : Env) (input : List Item) :
    ∀ (ps : List String) (rs : List QwenResult),
      run_worklist env input ps = Except.ok rs →
      List.Forall₂ (fun p r => process_item env input p = Except.ok r) ps rs := by
  intro ps
  induction ps with
  | nil =>
    intro rs h
    simp only [run_worklist] at h
    injection h with h2
    subst h2
    exact List.Forall₂.nil
  | cons p ps ih =>
    intro rs h
    simp only [run_worklist] at h
    cases hp : process_item env input p with
    | error e => simp [hp] at h
    | ok r =>
      rw [hp] at h
      cases hq : run_worklist env input ps with
      | error e => simp [hq] at h
      | ok rs2 =>
        rw [hq] at h
        injection h with h2
        subst h2
        exact List.Forall₂.cons hp (ih rs2 hq)

/-! ### Claim theorems -/

/-- C1, counterexample: a one-item batch with a single nonexistent file path
does not return a one-element error-tagged list — the load failure escapes
`inference` and aborts the whole call. -/
theorem missing_file_aborts_batch_cex :
    inference env_noload batch_missing none =
      Except.error (PyError.image_load_error "/no/such/file.png") := rfl

/-- C1, amended: when a worklist path's image fails to load (file missing,
unreadable, or undecodable) and every earlier worklist path was processed
without an uncaught exception, `inference` raises the load failure and
aborts the whole batch instead of appending an item-level error result. -/
theorem image_load_failure_aborts_inference (env : Env) (input : List Item)
    (paths1 paths2 : List String) (path : String) (rs1 : List QwenResult)
    (h1 : run_worklist env input paths1 = Except.ok rs1)
    (hpaths : extract_file_paths env input = paths1 ++ path :: paths2)
    (hload : env.image_dims path = none) :
    inference env input none = Except.error (PyError.image_load_error path) := by
  have hitem : process_item env input path = Except.error (PyError.image_load_error path) := by
    simp [process_item, hload]
  show run_worklist env input (extract_file_paths env input) =
    Except.error (PyError.image_load_error path)
  rw [hpaths, run_worklist_append, h1]
  simp only [run_worklist, hitem]

/-- C1, witness for the amended theorem at a concrete world and batch. -/
theorem image_load_failure_aborts_inference_witness :
    inference env_noload batch_missing2 none =
      Except.error (PyError.image_load_error "/missing.png") :=
  image_load_failure_aborts_inference env_noload batch_missing2 [] [] "/missing.png" []
    rfl rfl rfl

/-- C2: whenever a non-static `inference` call returns a result list, its
length equals the worklist length and the result at each index is exactly
the per-item outcome of the worklist path at the same index. -/
theorem inference_results_align_with_worklist (env : Env) (input : List Item)
    (rs : List QwenResult) (hok : inference env input none = Except.ok rs) :
    rs.length = (extract_file_paths env input).length ∧
    List.Forall₂ (fun p r => process_item env input p = Except.ok r)
      (extract_file_paths env input) rs := by
  have hok2 : run_worklist env input (extract_file_paths env input) = Except.ok rs := hok
  have h2 := run_worklist_ok_align env input (extract_file_paths env input) rs hok2
  exact ⟨(List.Forall₂.length_eq h2).symm, h2⟩

/-- C2, witness: a two-path batch in a fully succeeding world yields two
aligned results. -/
theorem inference_results_align_with_worklist_witness :
    ([QwenResult.text "\x7b\x7d", QwenResult.text "\x7b\x7d"] : List QwenResult).length =
      (extract_file_paths env_ok batch_two).length ∧
    List.Forall₂ (fun p r => process_item env_ok batch_two p = Except.ok r)
      (extract_file_paths env_ok batch_two)
      [QwenResult.text "\x7b\x7d", QwenResult.text "\x7b\x7d"] :=
  inference_results_align_with_worklist env_ok batch_two
    [QwenResult.text "\x7b\x7d", QwenResult.text "\x7b\x7d"] rfl

/-- C3, counterexample: an HTTP success whose body lacks
`choices[0].message.content` is not converted into an item-level error
result — the lookup failure escapes and aborts the `inference` call. -/
theorem malformed_body_aborts_inference_cex :
    inference env_badbody batch_one none = Except.error PyError.response_shape_error := rfl

/-- C3, amended: a 2xx response whose decoded body lacks
`choices[0].message.content` raises an uncaught lookup error
(`KeyError`/`IndexError`/`TypeError`) for that item, aborting the whole
`inference` call rather than appending an error-tagged result. -/
theorem response_shape_failure_aborts_inference (env : Env) (input : List Item)
    (path : String) (paths2 : List String) (w h : Nat) (bytes : List Nat)
    (item0 : Item) (txt : String) (body : JVal)
    (hpaths : extract_file_paths env input = path :: paths2)
    (hdims : env.image_dims path = some (w, h))
    (hbytes : env.file_bytes path = some bytes)
    (hhead : input.head? = some item0)
    (htxt : item0.text_input = some txt)
    (hnet : env.net { model := model_id, system_text := system_prompt,
                      user_text := txt,
                      image_url := data_url_head ++ base64String bytes }
            = NetResult.success body)
    (hshape : extract_content body = none) :
    inference env input none = Except.error PyError.response_shape_error := by
  have hurl : image_to_data_url env path = some (data_url_head ++ base64String bytes) := by
    simp [image_to_data_url, hbytes]
  have hitem : process_item env input path = Except.error PyError.response_shape_error := by
    simp only [process_item, hdims, hurl, hhead, htxt, hnet, hshape]
  show run_worklist env input (extract_file_paths env input) =
    Except.error PyError.response_shape_error
  rw [hpaths]
  simp only [run_worklist, hitem]

/-- C3, witness for the amended theorem at a concrete world and batch. -/
theorem response_shape_failure_aborts_inference_witness :
    inference env_badbody batch_one2 none = Except.error PyError.response_shape_error :=
  response_shape_failure_aborts_inference env_badbody batch_one2 "other.png" [] 100 100
    [0, 1] { file_path := some ["other.png"], text_input := some "summarize" } "summarize"
    (JVal.jobj []) rfl rfl rfl rfl rfl rfl rfl

/-- C4, counterexample: on parse failure the returned value is the
fence-extracted intermediate text, not the original raw input. -/
theorem parse_failure_returns_fence_text_cex :
    process_response_str "```json\nnot json\n```" = "not json" ∧
    ("not json" : String) ≠ "```json\nnot json\n```" := ⟨rfl, by decide⟩

/-- C4, amended: `process_response` is total (never raises, always returns a
string); when the cleaned text fails to parse as JSON it returns the
fence-narrowed text, which equals the original raw input whenever the input
contains no `"```json"` fence. -/
theorem process_response_total_fallback (s : List Char)
    (hfail : jsonLoads (replaceQuotes (pyStrip stripSetChars (fence_slice s))) = none) :
    process_response s = fence_slice s ∧
    (findSub fenceJsonTag s = none → process_response s = s) := by
  have h1 : process_response s = fence_slice s := by
    simp [process_response, clean_and_parse, hfail]
  exact ⟨h1, fun hnone => by rw [h1]; simp [fence_slice, hnone]⟩

/-- C4, witness: the spec's own fallback scenario, `"not json at all"`. -/
theorem process_response_total_fallback_witness :
    process_response "not json at all".data = fence_slice "not json at all".data ∧
    process_response "not json at all".data = "not json at all".data :=
  ⟨(process_response_total_fallback "not json at all".data rfl).1,
   (process_response_total_fallback "not json at all".data rfl).2 rfl⟩

/-- C5, counterexample: with an opening fence but no closing fence, the code
does not use the slice from the fenced content to the end of the string (it
uses the whole original text, fence marker included); the claim's slice
semantics would produce a parsed JSON document instead. -/
theorem fence_no_close_uses_whole_text_cex :
    process_response "```json\x7b\"a\": 1\x7d".data = "```json\x7b\"a\": 1\x7d".data ∧
    clean_and_parse (fence_slice_spec "```json\x7b\"a\": 1\x7d".data) =
      "\x7b\n  \"a\": 1\n\x7d".data ∧
    "```json\x7b\"a\": 1\x7d".data ≠ "\x7b\n  \"a\": 1\n\x7d".data :=
  ⟨rfl, rfl, by decide⟩

/-- C5, amended: when a closing fence follows the opening `"```json"` fence,
exactly the whitespace-stripped content between them is used for the
cleanup-and-parse steps; when no closing fence is found, the entire original
text (opening fence included) is used unchanged. -/
theorem fence_extraction_slices (s : List Char) (i : Nat)
    (hi : findSub fenceJsonTag s = some i) :
    (∀ j, findSub fence3Tag (s.drop (i + 7)) = some j →
       process_response s = clean_and_parse (stripPyWs ((s.drop (i + 7)).take j))) ∧
    (findSub fence3Tag (s.drop (i + 7)) = none →
       process_response s = clean_and_parse s) := by
  constructor
  · intro j hj
    simp [process_response, fence_slice, hi, hj]
  · intro hn
    simp [process_response, fence_slice, hi, hn]

/-- C5, witness for the amended theorem on a fenced input with a closing
fence. -/
theorem fence_extraction_slices_witness :
    process_response "x```json\x7b\x7d``` tail".data =
      clean_and_parse (stripPyWs ((("x```json\x7b\x7d``` tail".data).drop (1 + 7)).take 2)) :=
  (fence_extraction_slices "x```json\x7b\x7d``` tail".data 1 rfl).1 2 rfl

/-- C6: with bounds `(1250, 1750)`, in-bounds dimensions are returned
unchanged; oversized dimensions are replaced by
`(min 1250 ⌊1750·w/h⌋, min 1750 ⌊1250·h/w⌋)`, which never exceed the bounds
and never upscale either dimension. -/
theorem resize_bound_noupscale (w h : Nat) :
    (w ≤ 1250 ∧ h ≤ 1750 → resizeDims w h 1250 1750 = (w, h)) ∧
    (1250 < w ∨ 1750 < h →
       resizeDims w h 1250 1750 = (min 1250 (1750 * w / h), min 1750 (1250 * h / w)) ∧
       (resizeDims w h 1250 1750).1 ≤ 1250 ∧ (resizeDims w h 1250 1750).2 ≤ 1750 ∧
       (resizeDims w h 1250 1750).1 ≤ w ∧ (resizeDims w h 1250 1750).2 ≤ h) := by
  constructor
  · rintro ⟨hw, hh⟩
    have hcond : ¬(1250 < w ∨ 1750 < h) := by omega
    simp [resizeDims, hcond]
  · intro hover
    have heq : resizeDims w h 1250 1750 =
        (min 1250 (1750 * w / h), min 1750 (1250 * h / w)) := by
      simp [resizeDims, hover]
    refine ⟨heq, ?_, ?_, ?_, ?_⟩
    · rw [heq]; exact min_le_left _ _
    · rw [heq]; exact min_le_left _ _
    · rw [heq]
      rcases Nat.lt_or_ge 1250 w with hw | hw
      · exact le_trans (min_le_left _ _) (le_of_lt hw)
      · have hh : 1750 < h := by rcases hover with h3 | h3 <;> omega
        calc min 1250 (1750 * w / h) ≤ 1750 * w / h := min_le_right _ _
          _ ≤ h * w / h := Nat.div_le_div_right (Nat.mul_le_mul_right w (by omega))
          _ = w := Nat.mul_div_cancel_left w (by omega)
    · rw [heq]
      rcases Nat.lt_or_ge 1750 h with hh | hh
      · exact le_trans (min_le_left _ _) (le_of_lt hh)
      · have hw : 1250 < w := by rcases hover with h3 | h3 <;> omega
        calc min 1750 (1250 * h / w) ≤ 1250 * h / w := min_le_right _ _
          _ ≤ w * h / w := Nat.div_le_div_right (Nat.mul_le_mul_right h (by omega))
          _ = h := Nat.mul_div_cancel_left h (by omega)

/-- C6, witness at the oversized input `2000 × 100`. -/
theorem resize_bound_noupscale_witness :
    resizeDims 2000 100 1250 1750 =
      (min 1250 (1750 * 2000 / 100), min 1750 (1250 * 100 / 2000)) ∧
    (resizeDims 2000 100 1250 1750).1 ≤ 1250 ∧
    (resizeDims 2000 100 1250 1750).2 ≤ 1750 ∧
    (resizeDims 2000 100 1250 1750).1 ≤ 2000 ∧
    (resizeDims 2000 100 1250 1750).2 ≤ 100 :=
  (resize_bound_noupscale 2000 100).2 (Or.inl (by decide))

/-- C7, counterexample: at input `10000 × 10` the resized dimensions are
`1250 × 1`, whose aspect ratio `1250` differs from the input ratio `1000`
by `250`, far beyond a 1-pixel rounding tolerance. -/
theorem resize_ratio_cex :
    resizeDims 10000 10 1250 1750 = (1250, 1) ∧
    (1 : ℚ) < |(1250 : ℚ) / 1 - (10000 : ℚ) / 10| := by
  refine ⟨by decide, ?_⟩
  norm_num

/-- C7, amended: whenever resizing occurs, one output dimension is pinned at
its bound and the other equals the floor of the exact aspect-preserving
value, so the rounding error on that dimension is below one pixel (the
ratio of the outputs itself is not within 1 of the input ratio in
general). -/
theorem resize_dimension_rounding (w h : Nat) (hw : 1 ≤ w) (hh : 1 ≤ h)
    (hover : 1250 < w ∨ 1750 < h) :
    (h * 1250 ≤ w * 1750 →
       (resizeDims w h 1250 1750).1 = 1250 ∧
       (resizeDims w h 1250 1750).2 * w ≤ 1250 * h ∧
       1250 * h < ((resizeDims w h 1250 1750).2 + 1) * w) ∧
    (w * 1750 ≤ h * 1250 →
       (resizeDims w h 1250 1750).2 = 1750 ∧
       (resizeDims w h 1250 1750).1 * h ≤ 1750 * w ∧
       1750 * w < ((resizeDims w h 1250 1750).1 + 1) * h) := by
  have heq : resizeDims w h 1250 1750 =
      (min 1250 (1750 * w / h), min 1750 (1250 * h / w)) := by
    simp [resizeDims, hover]
  constructor
  · intro hwide
    have h1 : (1250 : Nat) ≤ 1750 * w / h :=
      (Nat.le_div_iff_mul_le (by omega)).mpr (by omega)
    have h2 : 1250 * h / w ≤ 1750 := by
      calc 1250 * h / w ≤ 1750 * w / w := Nat.div_le_div_right (by omega)
        _ = 1750 := Nat.mul_div_cancel 1750 (by omega)
    have hW : (resizeDims w h 1250 1750).1 = 1250 := by
      rw [heq]; exact min_eq_left h1
    have hH : (resizeDims w h 1250 1750).2 = 1250 * h / w := by
      rw [heq]; exact min_eq_right h2
    have hmod : (1250 * h) % w < w := Nat.mod_lt _ (by omega)
    refine ⟨hW, ?_, ?_⟩
    · rw [hH]; exact Nat.div_mul_le_self _ _
    · rw [hH]
      calc 1250 * h = w * (1250 * h / w) + (1250 * h) % w := (Nat.div_add_mod _ _).symm
        _ < w * (1250 * h / w) + w := Nat.add_lt_add_left hmod _
        _ = (1250 * h / w + 1) * w := by ring
  · intro htall
    have h1 : (1750 : Nat) ≤ 1250 * h / w :=
      (Nat.le_div_iff_mul_le (by omega)).mpr (by omega)
    have h2 : 1750 * w / h ≤ 1250 := by
      calc 1750 * w / h ≤ 1250 * h / h := Nat.div_le_div_right (by omega)
        _ = 1250 := Nat.mul_div_cancel 1250 (by omega)
    have hH : (resizeDims w h 1250 1750).2 = 1750 := by
      rw [heq]; exact min_eq_left h1
    have hW : (resizeDims w h 1250 1750).1 = 1750 * w / h := by
      rw [heq]; exact min_eq_right h2
    have hmod : (1750 * w) % h < h := Nat.mod_lt _ (by omega)
    refine ⟨hH, ?_, ?_⟩
    · rw [hW]; exact Nat.div_mul_le_self _ _
    · rw [hW]
      calc 1750 * w = h * (1750 * w / h) + (1750 * w) % h := (Nat.div_add_mod _ _).symm
        _ < h * (1750 * w / h) + h := Nat.add_lt_add_left hmod _
        _ = (1750 * w / h + 1) * h := by ring

/-- C7, witness for the amended theorem at the wide input `10000 × 10`. -/
theorem resize_dimension_rounding_witness :
    (resizeDims 10000 10 1250 1750).1 = 1250 ∧
    (resizeDims 10000 10 1250 1750).2 * 10000 ≤ 1250 * 10 ∧
    1250 * 10 < ((resizeDims 10000 10 1250 1750).2 + 1) * 10000 :=
  (resize_dimension_rounding 10000 10 (by decide) (by decide) (Or.inl (by decide))).1
    (by decide)

/-- C8: the outgoing request embeds exactly
`"data:image/jpeg;base64," ++ base64(raw file bytes)`; the per-item outcome
depends on the transport only through its answer at that payload, and is
unchanged under arbitrary reported image dimensions (the resize result is
dead for the transmitted bytes). -/
theorem transmitted_payload_original_bytes (env env2 : Env)
    (net2 : ChatPayload → NetResult) (input : List Item) (path : String)
    (w h w2 h2 : Nat) (bytes : List Nat) (item0 : Item) (txt : String)
    (hdims : env.image_dims path = some (w, h))
    (hbytes : env.file_bytes path = some bytes)
    (hhead : input.head? = some item0)
    (htxt : item0.text_input = some txt)
    (hnet : net2 { model := model_id, system_text := system_prompt, user_text := txt,
                   image_url := data_url_head ++ base64String bytes }
          = env.net { model := model_id, system_text := system_prompt, user_text := txt,
                      image_url := data_url_head ++ base64String bytes })
    (h2net : env2.net = env.net) (h2bytes : env2.file_bytes = env.file_bytes)
    (h2dims : env2.image_dims path = some (w2, h2)) :
    image_to_data_url env path = some (data_url_head ++ base64String bytes) ∧
    process_item { env with net := net2 } input path = process_item env input path ∧
    process_item env2 input path = process_item env input path := by
  have hurl : image_to_data_url env path = some (data_url_head ++ base64String bytes) := by
    simp [image_to_data_url, hbytes]
  have hurl2 : image_to_data_url { env with net := net2 } path =
      some (data_url_head ++ base64String bytes) := by
    simp [image_to_data_url, hbytes]
  have hurl3 : image_to_data_url env2 path = some (data_url_head ++ base64String bytes) := by
    simp [image_to_data_url, h2bytes, hbytes]
  refine ⟨hurl, ?_, ?_⟩
  · simp only [process_item, hdims, hurl, hurl2, hhead, htxt, hnet]
  · simp only [process_item, hdims, h2dims, hurl, hurl3, hhead, htxt, h2net]

/-- C8, witness at a concrete world with file bytes `[77, 78]`. -/
theorem transmitted_payload_original_bytes_witness :
    image_to_data_url env_bytes "doc.png" = some (data_url_head ++ base64String [77, 78]) ∧
    process_item { env_bytes with net := net_alt } batch_one "doc.png" =
      process_item env_bytes batch_one "doc.png" ∧
    process_item env_dims_alt batch_one "doc.png" =
      process_item env_bytes batch_one "doc.png" :=
  transmitted_payload_original_bytes env_bytes env_dims_alt net_alt batch_one "doc.png"
    2000 3000 5 6 [77, 78]
    { file_path := some ["doc.png"], text_input := some "extract" } "extract"
    rfl rfl rfl rfl rfl rfl rfl rfl

/-- C9: any batch whose flattened file-path worklist is empty (in particular
the empty batch) yields `Except.ok []` in non-static mode, in every world —
so no file is read, no request is made, and the first item's text input is
never consulted. -/
theorem empty_worklist_returns_empty (env : Env) (input : List Item)
    (mode : Option String) (hmode : mode ≠ some "static")
    (hempty : (input.map (fun d => d.file_path.getD [])).flatten = []) :
    inference env input mode = Except.ok [] := by
  have hext : extract_file_paths env input = [] := by
    revert hempty
    induction input with
    | nil => intro _; rfl
    | cons d rest ih =>
      intro hempty
      simp only [List.map_cons, List.flatten_cons, List.append_eq_nil] at hempty
      obtain ⟨h1, h2⟩ := hempty
      simp only [extract_file_paths, List.map_cons, List.flatten_cons, h1, List.map_nil,
        List.nil_append]
      exact ih h2
  unfold inference
  rw [if_neg hmode, hext]
  rfl

/-- C9, witness: the empty batch in a concrete world. -/
theorem empty_worklist_returns_empty_witness :
    inference env_noload [] none = Except.ok [] :=
  empty_worklist_returns_empty env_noload [] none (by decide) rfl

/-- C10: worklist construction is total and equals, in order, the
concatenation of the path lists of exactly those items that carry the
file-path field, each path resolved with `abspath`; items without the field
contribute nothing. -/
theorem extract_file_paths_concat (env : Env) (input : List Item) :
    extract_file_paths env input =
      ((input.filterMap Item.file_path).flatten).map env.abspath := by
  induction input with
  | nil => rfl
  | cons d rest ih =>
    have hstep : extract_file_paths env (d :: rest) =
        ((d.file_path.getD []).map env.abspath) ++ extract_file_paths env rest := by
      simp [extract_file_paths]
    rw [hstep, ih]
    cases hd : d.file_path with
    | none => simp [List.filterMap_cons, hd]
    | some ps => simp [List.filterMap_cons, hd, List.map_append]

end Sparrow
